import Mathlib

set_option linter.unusedVariables false

/-!
Verification of the login form component in
`src/app/auth/login/login.component.ts` (class `LoginComponent`).

The component is embedded shallowly:

* a `FormControlState` is a field value together with the control's
  `dirty` flag (the only interaction flag the component reads);
* the Angular built-in validators attached by the component
  (`Validators.required`, `Validators.email`, `Validators.minLength 8`)
  are embedded by their documented behaviour: `required` fails exactly on
  the empty string, and `email` / `minLength` skip empty values.  The
  email-format test itself is an external library detail, so it is kept
  abstract as a parameter `fmt : String → Bool`;
* the reactive streams (`buttonDisabled$`, `emailMessage$`,
  `passwordMessage$`) become pure functions of the form state, and the
  `startWith` / `map` pipeline of `buttonDisabled$` becomes a function
  from the list of emitted statuses to the list of emitted booleans;
* `onSubmit` becomes a pure function returning the (unchanged) form
  state together with the observable effects: the `loginUser` calls, the
  snack-bar notifications and the router navigations.  The one-shot
  authentication client is an oracle `auth : AuthUser → AuthResponse`.
-/

namespace LoginComponent

/-- Credentials sent to the authentication service
(`auth-user.interface.ts`): the form group's value. -/
structure AuthUser where
  email : String
  password : String
deriving Repr, DecidableEq

/-- Response of the authentication service
(`auth-response.interface.ts`): optional `token` and `error` fields. -/
structure AuthResponse where
  error : Option String := none
  token : Option String := none
deriving Repr, DecidableEq

/-- JavaScript truthiness of an optional string field: an absent field
(`undefined`/`null`) and the empty string are falsy, every other string
is truthy. -/
def jsTruthy : Option String → Bool
  | none => false
  | some s => s != ""

/-- One call to `MatSnackBar.open(message, action, config)` as issued by
`onSubmit`: the message, the action label (always `null` here), the
`duration` in milliseconds and the optional `verticalPosition` /
`horizontalPosition` entries of the config object. -/
structure SnackBarCall where
  message : String
  action : Option String
  duration : Nat
  verticalPosition : Option String
  horizontalPosition : Option String
deriving Repr, DecidableEq

/-- State of one `FormControl`: its current string value and its `dirty`
flag, the interaction flag the component reads (set by the UI binding
layer once the user has changed the value; the spec calls this
"touched"/"interacted with"). -/
structure FormControlState where
  value : String
  dirty : Bool
deriving Repr, DecidableEq

/-- State of the component's `formGroup`, with the two controls `email`
and `password` declared in the component. -/
structure FormGroupState where
  email : FormControlState
  password : FormControlState
deriving Repr, DecidableEq

/-- Error object of the `email` control, as produced by the validators
`[Validators.required, Validators.email]`. -/
structure EmailErrors where
  required : Bool
  email : Bool
deriving Repr, DecidableEq

/-- Errors of the `email` control.  `Validators.required` fails exactly
on the empty value; `Validators.email` returns no error on an empty
value and otherwise applies the library's format test, kept abstract as
`fmt`.  Angular merges the failing validators into one object and
reports `null` when none fails. -/
def emailErrors (fmt : String → Bool) (v : String) : Option EmailErrors :=
  let req : Bool := v == ""
  let eml : Bool := v != "" && !(fmt v)
  if req || eml then some ⟨req, eml⟩ else none

/-- Error object of the `password` control, as produced by the
validators `[Validators.required, Validators.minLength 8]`. -/
structure PasswordErrors where
  required : Bool
  minlength : Bool
deriving Repr, DecidableEq

/-- Errors of the `password` control.  `Validators.required` fails
exactly on the empty value; `Validators.minLength 8` returns no error on
an empty value and otherwise fails when the length is below 8. -/
def passwordErrors (v : String) : Option PasswordErrors :=
  let req : Bool := v == ""
  let minl : Bool := v != "" && decide (v.length < 8)
  if req || minl then some ⟨req, minl⟩ else none

/-- Validity of the whole form group (`formGroup.valid`): both controls
are free of validation errors. -/
def formValid (fmt : String → Bool) (g : FormGroupState) : Bool :=
  (emailErrors fmt g.email.value).isNone && (passwordErrors g.password.value).isNone

/-- Status string emitted by `formGroup.statusChanges` for this form:
with no asynchronous validators attached the group is either `VALID` or
`INVALID`. -/
def formStatus (fmt : String → Bool) (g : FormGroupState) : String :=
  if formValid fmt g then "VALID" else "INVALID"

/-- The `map` stage of `buttonDisabled$`: one status emission is mapped
to `status === 'INVALID'`. -/
def buttonDisabledOf (status : String) : Bool :=
  status == "INVALID"

/-- The emissions of `buttonDisabled$` as a function of the statuses
emitted by `formGroup.statusChanges`: the mapped statuses preceded by
the `startWith(true)` seed. -/
def buttonDisabledEmissions (statuses : List String) : List Bool :=
  true :: statuses.map buttonDisabledOf

/-- The body of the `map` in `emailMessage$`: reads the `email`
control's errors; on an error object it returns the required hint, else
the format hint, else the empty string; with no error object it returns
the empty string. -/
def emailMessage (fmt : String → Bool) (g : FormGroupState) : String :=
  match emailErrors fmt g.email.value with
  | some e =>
      if e.required then "This filed is required"
      else if e.email then "Wrong email format"
      else ""
  | none => ""

/-- The body of the `map` in `passwordMessage$`: when the `password`
control has an error object and is `dirty`, it returns the required
hint, else the min-length hint, else the empty string; otherwise it
returns the empty string. -/
def passwordMessage (g : FormGroupState) : String :=
  match passwordErrors g.password.value with
  | some e =>
      if g.password.dirty then
        if e.required then "Password is required"
        else if e.minlength then "Password should have at least 8 characters"
        else ""
      else ""
  | none => ""

/-- The observable effects of one `onSubmit` call: the arguments of the
`loginUser` calls, of the `snackBar.open` calls, and of the
`router.navigateByUrl` calls, in order. -/
structure SubmitEffects where
  loginCalls : List AuthUser
  notifications : List SnackBarCall
  navigations : List String
deriving Repr, DecidableEq

/-- No observable effect. -/
def SubmitEffects.empty : SubmitEffects :=
  ⟨[], [], []⟩

/-- Concatenation of the effects of successive calls. -/
def SubmitEffects.append (a b : SubmitEffects) : SubmitEffects :=
  ⟨a.loginCalls ++ b.loginCalls, a.notifications ++ b.notifications,
    a.navigations ++ b.navigations⟩

/-- The subscription callback on the `loginUser` result: on a truthy
`error` it opens the "Login failed" snack bar for 1000 ms and returns;
else on a truthy `token` it opens the "Logged in!" snack bar for
1000 ms at top/right and navigates to "/settings"; else nothing. -/
def handleAuthResponse (r : AuthResponse) : List SnackBarCall × List String :=
  if jsTruthy r.error then
    ([⟨"Login failed", none, 1000, none, none⟩], [])
  else if jsTruthy r.token then
    ([⟨"Logged in!", none, 1000, some "top", some "right"⟩], ["/settings"])
  else
    ([], [])

/-- `onSubmit($event)`: the event argument is ignored; when
`formGroup.valid` holds, the form value is sent to `loginUser` and the
single response is handled by `handleAuthResponse`; otherwise nothing
happens.  Component state is returned unchanged: the method never
writes to it. -/
def onSubmit (fmt : String → Bool) (ev : String) (g : FormGroupState)
    (auth : AuthUser → AuthResponse) : FormGroupState × SubmitEffects :=
  if formValid fmt g then
    let user : AuthUser := ⟨g.email.value, g.password.value⟩
    let handled := handleAuthResponse (auth user)
    (g, ⟨[user], handled.1, handled.2⟩)
  else
    (g, SubmitEffects.empty)

/-- Repeated `onSubmit` calls, one per event in the list, threading the
component state through and accumulating the effects. -/
def onSubmitRepeat (fmt : String → Bool) (evs : List String)
    (g : FormGroupState) (auth : AuthUser → AuthResponse) :
    FormGroupState × SubmitEffects :=
  match evs with
  | [] => (g, SubmitEffects.empty)
  | ev :: rest =>
      let step := onSubmit fmt ev g auth
      let next := onSubmitRepeat fmt rest step.1 auth
      (next.1, SubmitEffects.append step.2 next.2)

theorem SubmitEffects.append_empty_empty :
    SubmitEffects.append SubmitEffects.empty SubmitEffects.empty = SubmitEffects.empty := by
  rfl

theorem buttonDisabledOf_formStatus (fmt : String → Bool) (g : FormGroupState) :
    buttonDisabledOf (formStatus fmt g) = !(formValid fmt g) := by
  cases h : formValid fmt g <;> simp [buttonDisabledOf, formStatus, h]

/-- C1: whenever the form is invalid, `onSubmit` is a no-op: for any
event argument, and for any number of repeated calls, no `loginUser`
call, no notification and no navigation is produced and the component
state is unchanged. -/
theorem onSubmit_invalid_noop (fmt : String → Bool) (g : FormGroupState)
    (auth : AuthUser → AuthResponse) (h : formValid fmt g = false) :
    (∀ ev : String, onSubmit fmt ev g auth = (g, SubmitEffects.empty)) ∧
    (∀ evs : List String, onSubmitRepeat fmt evs g auth = (g, SubmitEffects.empty)) := by
  have hone : ∀ ev : String, onSubmit fmt ev g auth = (g, SubmitEffects.empty) := by
    intro ev
    simp [onSubmit, h]
  refine ⟨hone, ?_⟩
  intro evs
  induction evs with
  | nil => rfl
  | cons ev rest ih =>
      simp only [onSubmitRepeat, hone ev, ih]
      rfl

/-- C1 witness: at the initial form state (both fields empty, hence
invalid) three repeated submits with an authentication oracle that would
answer with a token produce no effect at all. -/
theorem onSubmit_invalid_noop_witness :
    onSubmitRepeat (fun s => s == "a@b.com") ["e1", "e2", "e3"]
        ⟨⟨"", false⟩, ⟨"", false⟩⟩ (fun _ => ⟨none, some "abc123"⟩)
      = (⟨⟨"", false⟩, ⟨"", false⟩⟩, SubmitEffects.empty) :=
  (onSubmit_invalid_noop (fun s => s == "a@b.com") ⟨⟨"", false⟩, ⟨"", false⟩⟩
    (fun _ => ⟨none, some "abc123"⟩) (by decide)).2 ["e1", "e2", "e3"]

/-- C2: whenever the form is valid, `onSubmit` invokes `loginUser`
exactly once, with exactly the credentials currently held in the form. -/
theorem onSubmit_valid_callsLoginOnce (fmt : String → Bool) (ev : String)
    (g : FormGroupState) (auth : AuthUser → AuthResponse)
    (h : formValid fmt g = true) :
    (onSubmit fmt ev g auth).2.loginCalls = [⟨g.email.value, g.password.value⟩] := by
  simp [onSubmit, h]

/-- C2 witness: with email "a@b.com" and password "password1" the
client is called exactly once with exactly those credentials. -/
theorem onSubmit_valid_callsLoginOnce_witness :
    (onSubmit (fun s => s == "a@b.com") "click"
        ⟨⟨"a@b.com", true⟩, ⟨"password1", true⟩⟩
        (fun _ => ⟨none, some "abc123"⟩)).2.loginCalls
      = [⟨"a@b.com", "password1"⟩] :=
  onSubmit_valid_callsLoginOnce (fun s => s == "a@b.com") "click"
    ⟨⟨"a@b.com", true⟩, ⟨"password1", true⟩⟩
    (fun _ => ⟨none, some "abc123"⟩) (by decide)

/-- C3: whenever the form is valid and the authentication response has
a truthy `error` field, the submit flow shows exactly one notification,
with the literal message "Login failed" and duration 1000 ms, and
performs no navigation. -/
theorem onSubmit_errorResponse (fmt : String → Bool) (ev : String)
    (g : FormGroupState) (auth : AuthUser → AuthResponse)
    (hval : formValid fmt g = true)
    (herr : jsTruthy (auth ⟨g.email.value, g.password.value⟩).error = true) :
    (onSubmit fmt ev g auth).2.notifications
        = [⟨"Login failed", none, 1000, none, none⟩] ∧
    (onSubmit fmt ev g auth).2.navigations = [] := by
  constructor <;> simp [onSubmit, hval, handleAuthResponse, herr]

/-- C3 witness: at Scenario B, response `(error: "bad credentials")`,
the "Login failed" notification is shown once and no navigation
occurs. -/
theorem onSubmit_errorResponse_witness :
    (onSubmit (fun s => s == "a@b.com") "click"
        ⟨⟨"a@b.com", true⟩, ⟨"password1", true⟩⟩
        (fun _ => ⟨some "bad credentials", none⟩)).2.notifications
      = [⟨"Login failed", none, 1000, none, none⟩] ∧
    (onSubmit (fun s => s == "a@b.com") "click"
        ⟨⟨"a@b.com", true⟩, ⟨"password1", true⟩⟩
        (fun _ => ⟨some "bad credentials", none⟩)).2.navigations = [] :=
  onSubmit_errorResponse (fun s => s == "a@b.com") "click"
    ⟨⟨"a@b.com", true⟩, ⟨"password1", true⟩⟩
    (fun _ => ⟨some "bad credentials", none⟩) (by decide) (by decide)

/-- C4: whenever the form is valid and the authentication response has
a falsy `error` field and a truthy `token` field, the submit flow shows
exactly one notification, with the literal message "Logged in!",
duration 1000 ms and top/right placement, and navigates exactly once,
to the literal path "/settings". -/
theorem onSubmit_tokenResponse (fmt : String → Bool) (ev : String)
    (g : FormGroupState) (auth : AuthUser → AuthResponse)
    (hval : formValid fmt g = true)
    (herr : jsTruthy (auth ⟨g.email.value, g.password.value⟩).error = false)
    (htok : jsTruthy (auth ⟨g.email.value, g.password.value⟩).token = true) :
    (onSubmit fmt ev g auth).2.notifications
        = [⟨"Logged in!", none, 1000, some "top", some "right"⟩] ∧
    (onSubmit fmt ev g auth).2.navigations = ["/settings"] := by
  constructor <;> simp [onSubmit, hval, handleAuthResponse, herr, htok]

/-- C4 witness: at Scenario C, response `(token: "abc123")`, the
"Logged in!" notification is shown once and navigation to "/settings"
occurs exactly once. -/
theorem onSubmit_tokenResponse_witness :
    (onSubmit (fun s => s == "a@b.com") "click"
        ⟨⟨"a@b.com", true⟩, ⟨"password1", true⟩⟩
        (fun _ => ⟨none, some "abc123"⟩)).2.notifications
      = [⟨"Logged in!", none, 1000, some "top", some "right"⟩] ∧
    (onSubmit (fun s => s == "a@b.com") "click"
        ⟨⟨"a@b.com", true⟩, ⟨"password1", true⟩⟩
        (fun _ => ⟨none, some "abc123"⟩)).2.navigations = ["/settings"] :=
  onSubmit_tokenResponse (fun s => s == "a@b.com") "click"
    ⟨⟨"a@b.com", true⟩, ⟨"password1", true⟩⟩
    (fun _ => ⟨none, some "abc123"⟩) (by decide) (by decide) (by decide)

/-- C5: whenever the form is valid and the authentication response has
neither a truthy `error` nor a truthy `token`, the submit flow produces
no notification and no navigation. -/
theorem onSubmit_emptyResponse (fmt : String → Bool) (ev : String)
    (g : FormGroupState) (auth : AuthUser → AuthResponse)
    (hval : formValid fmt g = true)
    (herr : jsTruthy (auth ⟨g.email.value, g.password.value⟩).error = false)
    (htok : jsTruthy (auth ⟨g.email.value, g.password.value⟩).token = false) :
    (onSubmit fmt ev g auth).2.notifications = [] ∧
    (onSubmit fmt ev g auth).2.navigations = [] := by
  constructor <;> simp [onSubmit, hval, handleAuthResponse, herr, htok]

/-- C5 witness: at Scenario D, the empty response (neither field set),
no notification and no navigation are produced. -/
theorem onSubmit_emptyResponse_witness :
    (onSubmit (fun s => s == "a@b.com") "click"
        ⟨⟨"a@b.com", true⟩, ⟨"password1", true⟩⟩
        (fun _ => ⟨none, none⟩)).2.notifications = [] ∧
    (onSubmit (fun s => s == "a@b.com") "click"
        ⟨⟨"a@b.com", true⟩, ⟨"password1", true⟩⟩
        (fun _ => ⟨none, none⟩)).2.navigations = [] :=
  onSubmit_emptyResponse (fun s => s == "a@b.com") "click"
    ⟨⟨"a@b.com", true⟩, ⟨"password1", true⟩⟩
    (fun _ => ⟨none, none⟩) (by decide) (by decide) (by decide)

/-- C6: for every email-field value the email hint is: "This filed is
required" when the email is empty (the required error taking precedence
over the format error), "Wrong email format" when the email is
non-empty but fails the email-format check, and the empty string
otherwise, i.e. exactly when the email control holds no validation
error. -/
theorem emailMessage_cases (fmt : String → Bool) (g : FormGroupState) :
    emailMessage fmt g =
      (if g.email.value == "" then "This filed is required"
       else if !(fmt g.email.value) then "Wrong email format"
       else "") := by
  by_cases h : g.email.value = ""
  · simp [emailMessage, emailErrors, h]
  · by_cases hf : fmt g.email.value
    · simp [emailMessage, emailErrors, h, hf]
    · simp [emailMessage, emailErrors, h, hf]

/-- C7: for every password-field state the password hint is the empty
string when the field is not dirty (the user has not interacted with
it), regardless of validity; when it is dirty it is "Password is
required" on an empty value (required taking precedence over
too-short), "Password should have at least 8 characters" on a non-empty
value shorter than 8 characters, and empty otherwise. -/
theorem passwordMessage_cases (g : FormGroupState) :
    passwordMessage g =
      (if g.password.dirty then
        (if g.password.value == "" then "Password is required"
         else if decide (g.password.value.length < 8) then
           "Password should have at least 8 characters"
         else "")
       else "") := by
  by_cases hd : g.password.dirty <;> by_cases h : g.password.value = "" <;>
    by_cases hl : g.password.value.length < 8 <;>
      simp [passwordMessage, passwordErrors, hd, h, hl]

/-- C8: for every sequence of form states, the disabled-button signal's
emissions are the seeded `true` followed by the negated validity of
each state: the initial emission is `true` regardless of the actual
initial field contents, and every state whose form validity is false
yields the emission `true`. -/
theorem buttonDisabled_startsTrue (fmt : String → Bool)
    (states : List FormGroupState) :
    buttonDisabledEmissions (states.map (formStatus fmt))
        = true :: states.map (fun g => !(formValid fmt g)) ∧
    (buttonDisabledEmissions (states.map (formStatus fmt))).head? = some true := by
  refine ⟨?_, rfl⟩
  simp [buttonDisabledEmissions, List.map_map, Function.comp_def,
    buttonDisabledOf_formStatus]

/-- C9: whenever the form is valid and the authentication response has
both a truthy `error` and a truthy `token`, the error branch takes
precedence: the notifications are exactly one "Login failed" call (so
no "Logged in!" notification is shown) and no navigation occurs. -/
theorem onSubmit_errorAndToken (fmt : String → Bool) (ev : String)
    (g : FormGroupState) (auth : AuthUser → AuthResponse)
    (hval : formValid fmt g = true)
    (herr : jsTruthy (auth ⟨g.email.value, g.password.value⟩).error = true)
    (htok : jsTruthy (auth ⟨g.email.value, g.password.value⟩).token = true) :
    (onSubmit fmt ev g auth).2.notifications
        = [⟨"Login failed", none, 1000, none, none⟩] ∧
    (onSubmit fmt ev g auth).2.navigations = [] := by
  constructor <;> simp [onSubmit, hval, handleAuthResponse, herr]

/-- C9 witness: on the response with both fields set, `(error: "bad
credentials", token: "abc123")`, only the "Login failed" notification
is shown and no navigation occurs. -/
theorem onSubmit_errorAndToken_witness :
    (onSubmit (fun s => s == "a@b.com") "click"
        ⟨⟨"a@b.com", true⟩, ⟨"password1", true⟩⟩
        (fun _ => ⟨some "bad credentials", some "abc123"⟩)).2.notifications
      = [⟨"Login failed", none, 1000, none, none⟩] ∧
    (onSubmit (fun s => s == "a@b.com") "click"
        ⟨⟨"a@b.com", true⟩, ⟨"password1", true⟩⟩
        (fun _ => ⟨some "bad credentials", some "abc123"⟩)).2.navigations = [] :=
  onSubmit_errorAndToken (fun s => s == "a@b.com") "click"
    ⟨⟨"a@b.com", true⟩, ⟨"password1", true⟩⟩
    (fun _ => ⟨some "bad credentials", some "abc123"⟩)
    (by decide) (by decide) (by decide)

/-- C10: every emission of the disabled-button signal after the seeded
initial one equals the test of the emitted status against the exact
string "INVALID"; any other status, a pending one included, yields
`false`. -/
theorem buttonDisabled_afterInitial (statuses : List String) :
    (buttonDisabledEmissions statuses).tail = statuses.map buttonDisabledOf ∧
    (∀ s : String, buttonDisabledOf s = decide (s = "INVALID")) ∧
    buttonDisabledOf "PENDING" = false := by
  refine ⟨rfl, ?_, by decide⟩
  intro s
  by_cases h : s = "INVALID" <;> simp [buttonDisabledOf, h]

end LoginComponent
